import Mathlib

/-!
Verification of the TradingView → Telegram webhook forwarder (`server.py`).

The development shallowly embeds the Python source: payloads are association
lists of loosely typed JSON scalars, Python `float` values are modelled as
exact rationals (so float rounding in `math.log10` near decision boundaries,
IEEE `nan`/`inf` payload numbers and negative-zero formatting are outside the
model; no claim below depends on them), network calls are oracles supplied in
an environment record, and the handler returns its HTTP result together with
the list of external effects (provider queries and Telegram sends) it
performed, in order.
-/

set_option autoImplicit false
set_option maxRecDepth 8192

attribute [local semireducible] Rat.add Rat.mul Rat.inv Rat.sub Rat.ofScientific

namespace TVBot

/-! ### Characters and strings (ASCII, mirroring the Python string ops used) -/

/-- Whitespace characters recognised by Python's default `str.strip` and `\s`. -/
def isPySpace (c : Char) : Bool :=
  c = ' ' ∨ c = '\t' ∨ c = '\n' ∨ c = '\r' ∨ c = '\x0b' ∨ c = '\x0c'

/-- ASCII lower-casing of one character (`str.lower` on the ASCII range). -/
def lowerChar (c : Char) : Char :=
  if 'A' ≤ c ∧ c ≤ 'Z' then Char.ofNat (c.toNat + 32) else c

/-- ASCII upper-casing of one character (`str.upper` on the ASCII range). -/
def upperChar (c : Char) : Char :=
  if 'a' ≤ c ∧ c ≤ 'z' then Char.ofNat (c.toNat - 32) else c

/-- Python `str.strip()` on a character list. -/
def stripL (l : List Char) : List Char :=
  ((l.dropWhile isPySpace).reverse.dropWhile isPySpace).reverse

/-- Python `str.strip()`. -/
def pyStrip (s : String) : String := String.mk (stripL s.data)

/-- Python `str.lower()` (ASCII fragment). -/
def pyLower (s : String) : String := String.mk (s.data.map lowerChar)

/-- Python `str.upper()` (ASCII fragment). -/
def pyUpper (s : String) : String := String.mk (s.data.map upperChar)

/-- Fuel-bounded worker for `removeOcc`; the fuel (initially the list length,
which bounds the number of steps) keeps the recursion structural. -/
def removeOccF (c0 : Char) (cs : List Char) : ℕ → List Char → List Char
  | 0, l => l
  | _ + 1, [] => []
  | fuel + 1, a :: rest =>
    if (c0 :: cs).isPrefixOf (a :: rest) then removeOccF c0 cs fuel (rest.drop cs.length)
    else a :: removeOccF c0 cs fuel rest

/-- Left-to-right removal of every non-overlapping occurrence of the pattern
`c0 :: cs`, mirroring Python `str.replace(pat, "")` for a nonempty pattern. -/
def removeOcc (c0 : Char) (cs : List Char) (l : List Char) : List Char :=
  removeOccF c0 cs l.length l

/-- Python `str.split(sep)` for a one-character separator. -/
def splitChar (c : Char) : List Char → List (List Char)
  | [] => [[]]
  | a :: rest =>
    let r := splitChar c rest
    if a = c then [] :: r
    else
      match r with
      | g :: gs => (a :: g) :: gs
      | [] => [[a]]

/-- Substring test (`needle in haystack` on character lists). -/
def containsSub (needle : List Char) : List Char → Bool
  | [] => needle.isEmpty
  | a :: rest => needle.isPrefixOf (a :: rest) || containsSub needle rest

/-- Substring test on strings. -/
def containsStr (needle hay : String) : Bool := containsSub needle.data hay.data

/-- Decimal digit character for a value in `[0, 9]`. -/
def digitChar (n : ℕ) : Char := Char.ofNat (48 + n)

/-- Decimal digits of a natural number, most significant first; the fuel
(initially the number itself, which bounds the digit count) keeps the
recursion structural. -/
def natDigitsAux : ℕ → ℕ → List Char → List Char
  | 0, _, acc => acc
  | fuel + 1, n, acc =>
    if n = 0 then acc else natDigitsAux fuel (n / 10) (digitChar (n % 10) :: acc)

/-- Decimal rendering of a natural number (Python `str(n)` for `n : int ≥ 0`). -/
def natRepr (n : ℕ) : String :=
  if n = 0 then "0" else String.mk (natDigitsAux n n [])

/-- Decimal rendering of an integer (Python `str(i)` for `i : int`). -/
def intRepr (i : ℤ) : String :=
  if i < 0 then "-" ++ natRepr i.natAbs else natRepr i.natAbs

/-- Left-pad a digit string with zeros up to width `d`. -/
def padZeros (d : ℕ) (s : String) : String :=
  String.mk (List.replicate (d - s.length) '0') ++ s

/-! ### The loosely typed payload model

A JSON scalar as it arrives in the webhook body. Python's `None` (both a JSON
`null` stored in the dict and the `None` returned by `dict.get`/`_get` for a
missing key) is `jnull`; numbers (`int` and `float` alike) are exact rationals. -/

inductive JVal where
  | jnull
  | jnum (q : ℚ)
  | jstr (s : String)
  | jbool (b : Bool)
deriving DecidableEq, Repr

/-- An inbound alert payload: a JSON object, as a key/value association list. -/
abbrev Payload := List (String × JVal)

/-- First stored value for a key, if the key is present at all. -/
def lookupP (p : Payload) (k : String) : Option JVal :=
  (p.find? (fun kv => kv.1 = k)).map (fun kv => kv.2)

/-- Python `payload.get(k)`: the stored value, or `None` when absent. -/
def dgetJ (p : Payload) (k : String) : JVal :=
  match lookupP p k with
  | some v => v
  | none => JVal.jnull

/-- The source's `_get(p, *keys)` (server.py lines 66–70): the first key that
is present with a non-`None` value wins; otherwise `None`. -/
def _get (p : Payload) : List String → JVal
  | [] => JVal.jnull
  | k :: ks =>
    match lookupP p k with
    | some v => if v = JVal.jnull then _get p ks else v
    | none => _get p ks

/-- Python truthiness of a payload scalar. -/
def truthy : JVal → Bool
  | JVal.jnull => false
  | JVal.jnum q => q ≠ 0
  | JVal.jstr s => s ≠ ""
  | JVal.jbool b => b

/-- Python `str(v)` / f-string interpolation of a payload scalar. Rendering of
non-integral numbers is a fixed-precision approximation of `repr(float)`;
no claim below depends on it. -/
def pyStrOf : JVal → String
  | JVal.jnull => "None"
  | JVal.jnum q => if q.den = 1 then intRepr q.num else intRepr q.num ++ "/" ++ natRepr q.den
  | JVal.jstr s => s
  | JVal.jbool b => if b then "True" else "False"

/-! ### Python `float(str)` -/

/-- Numeric value of a digit run. -/
def digitsVal (l : List Char) : ℕ :=
  l.foldl (fun a c => a * 10 + (c.toNat - 48)) 0

/-- Python `float(s)` on a string: optional surrounding whitespace and sign,
then `digits[.digits]` or `.digits`, with an optional `e`/`E` exponent.
(`nan`/`inf` literals and underscore separators are not representable in the
exact-rational model and parse as failure here; no claim depends on them.) -/
def pyFloatParse (s : String) : Option ℚ :=
  let l := stripL s.data
  let sgnStrip : Bool × List Char :=
    match l with
    | '-' :: r => (true, r)
    | '+' :: r => (false, r)
    | _ => (false, l)
  let neg := sgnStrip.1
  let l1 := sgnStrip.2
  let ip := l1.takeWhile Char.isDigit
  let l2 := l1.dropWhile Char.isDigit
  let fracSplit : List Char × List Char :=
    match l2 with
    | '.' :: r => (r.takeWhile Char.isDigit, r.dropWhile Char.isDigit)
    | _ => ([], l2)
  let fp := fracSplit.1
  let l3 := fracSplit.2
  if ip.isEmpty ∧ fp.isEmpty then none
  else
    let mant : ℚ := (digitsVal ip : ℚ) + (digitsVal fp : ℚ) / (10 : ℚ) ^ fp.length
    let signed := if neg then -mant else mant
    match l3 with
    | [] => some signed
    | e :: r =>
      if e = 'e' ∨ e = 'E' then
        let esgn : Bool × List Char :=
          match r with
          | '-' :: r2 => (true, r2)
          | '+' :: r2 => (false, r2)
          | _ => (false, r)
        let edig := esgn.2.takeWhile Char.isDigit
        let erest := esgn.2.dropWhile Char.isDigit
        if edig.isEmpty ∨ ¬ erest.isEmpty then none
        else
          let ex : ℤ := if esgn.1 then -(digitsVal edig : ℤ) else (digitsVal edig : ℤ)
          some (signed * (10 : ℚ) ^ ex)
      else none

/-- Python `float(v)` on a payload scalar; `none` models a raised exception. -/
def pyFloat : JVal → Option ℚ
  | JVal.jnull => none
  | JVal.jnum q => some q
  | JVal.jstr s => pyFloatParse s
  | JVal.jbool b => some (if b then 1 else 0)

/-- Python `int(s)` on a string: optional surrounding whitespace and sign,
then decimal digits only; anything else (including a float literal like
`"4.2"`) raises, modelled as `none`. -/
def pyIntParse (s : String) : Option ℤ :=
  let l := stripL s.data
  let sgn : Bool × List Char :=
    match l with
    | '-' :: r => (true, r)
    | '+' :: r => (false, r)
    | _ => (false, l)
  let ds := sgn.2
  if ds.isEmpty ∨ ¬ ds.all Char.isDigit then none
  else some (if sgn.1 then -(digitsVal ds : ℤ) else (digitsVal ds : ℤ))

/-! ### Fixed-point formatting (Python `f"{x:.df}"` over exact rationals) -/

/-- Floor of a rational as an integer. -/
def zfloor (q : ℚ) : ℤ := q.num.fdiv (q.den : ℤ)

/-- Round to the nearest integer, ties to even: the rounding of Python's
float-to-decimal conversion, applied here to the exact rational value. -/
def roundHalfEven (q : ℚ) : ℤ :=
  let f := zfloor q
  let r := q - (f : ℚ)
  if r < 1 / 2 then f
  else if 1 / 2 < r then f + 1
  else if f % 2 = 0 then f else f + 1

/-- Render the scaled integer `n` as a decimal with `d` fractional digits. -/
def fmtScaled (n : ℤ) (d : ℕ) : String :=
  let sign := if n < 0 then "-" else ""
  let m := n.natAbs
  if d = 0 then sign ++ natRepr m
  else sign ++ natRepr (m / 10 ^ d) ++ "." ++ padZeros d (natRepr (m % 10 ^ d))

/-- Python `f"{x:.{d}f}"` on the exact rational `x` (round half to even; the
sign of an IEEE negative zero is not modelled). -/
def fmtFixed (q : ℚ) (d : ℕ) : String :=
  fmtScaled (roundHalfEven (q * (10 : ℚ) ^ d)) d

/-- Python `int(x)` on a rational float value: truncation toward zero. -/
def truncToInt (q : ℚ) : ℤ := q.num.tdiv (q.den : ℤ)

/-! ### server.py utility functions -/

/-- The source's `_clean_num(v, decimals, allow_dash)` (lines 36–51): numbers
are rendered at a fixed precision, the strings `na`/`nan`/`` (after strip and
lower-case) become the placeholder, other strings are comma/whitespace
stripped and parsed, and an unparseable string is returned as that stripped,
lower-cased string. -/
def _clean_num (v : JVal) (decimals : ℕ) (allow_dash : Bool) : String :=
  let dash := if allow_dash then "—" else ""
  match v with
  | JVal.jnull => dash
  | JVal.jnum q => fmtFixed q decimals
  | JVal.jbool b => fmtFixed (if b then 1 else 0) decimals
  | JVal.jstr s0 =>
    let s := pyLower (pyStrip s0)
    if s = "na" ∨ s = "nan" ∨ s = "" then dash
    else
      let s2 := String.mk (s.data.filter (fun c => ¬ (c = ',' ∨ isPySpace c)))
      match pyFloatParse s2 with
      | some q => fmtFixed q decimals
      | none => s2

/-- The source's `_abbr(v)` (lines 53–64): abbreviate a quantity with
K/M/B/T suffixes, two decimals per tier, sign preserved. -/
def _abbr (q : ℚ) : String :=
  let sign := if q < 0 then "-" else ""
  let n := |q|
  if n ≥ 1000000000000 then sign ++ fmtFixed (n / 1000000000000) 2 ++ "T"
  else if n ≥ 1000000000 then sign ++ fmtFixed (n / 1000000000) 2 ++ "B"
  else if n ≥ 1000000 then sign ++ fmtFixed (n / 1000000) 2 ++ "M"
  else if n ≥ 1000 then sign ++ fmtFixed (n / 1000) 2 ++ "K"
  else sign ++ fmtFixed n 0

/-- The source's `trend_read(adx, di_p, di_m)` (lines 274–283). -/
def trend_read (adx di_p di_m : JVal) : String :=
  match pyFloat adx, pyFloat di_p, pyFloat di_m with
  | some a, some dp, some dm =>
    if a ≥ 25 then (if dp > dm then "Strong Bull" else "Strong Bear")
    else if a ≥ 18 then (if dp > dm then "Mild Bull" else "Mild Bear")
    else "Range/Weak"
  | _, _, _ => "—"

/-! ### Symbol parsing (server.py lines 72–87) -/

/-- The quote-asset suffix list, in the exact order the source scans it. -/
def QUOTES : List String :=
  ["USDT", "USD", "USDC", "FDUSD", "BUSD", "TUSD", "EUR", "TRY", "BTC", "ETH"]

/-- The `for q in QUOTES` loop with its `break`: the first list element that is
a suffix of the pair and strictly shorter than it. -/
def findQuote (pairNorm : String) : List String → Option String
  | [] => none
  | q :: qs =>
    if q.data.isSuffixOf pairNorm.data ∧ q.length < pairNorm.length then some q
    else findQuote pairNorm qs

/-- The source's `parse_tv_symbol(tv_symbol)`: split off the venue at `:`,
strip `-`, `/`, `.P`, `_PERP`, `-PERP` from the pair, then match a quote
suffix. Returns `(venue, base, quote, pair_norm)`. -/
def parse_tv_symbol (tv : String) : Option String × Option String × Option String × String :=
  if tv = "" then (none, none, none, "")
  else
    let parts := splitChar ':' tv.data
    let venue := if parts.length ≥ 2 then some (pyUpper (String.mk (parts.headD []))) else none
    let pairRaw := parts.getLastD []
    let pn :=
      removeOcc '-' ['P', 'E', 'R', 'P']
        (removeOcc '_' ['P', 'E', 'R', 'P']
          (removeOcc '.' ['P'] (removeOcc '/' [] (removeOcc '-' [] pairRaw))))
    let pairNorm := String.mk pn
    match findQuote pairNorm QUOTES with
    | some q =>
      (venue, some (String.mk (pairNorm.data.take (pairNorm.length - q.length))), some q, pairNorm)
    | none => (venue, none, none, pairNorm)

/-! ### Provider oracles and effect events -/

/-- An externally observable effect of handling one alert. -/
inductive Event where
  | cgQuery (sym : String)
  | venueQuery (venue : String) (arg : String)
  | tgSend (text : String)
deriving DecidableEq, Repr

/-- Responses of the external market-data providers. `cg` stands for the whole
of `get_coingecko_volume_24h_by_symbol` (lines 113–140): a numeric 24h volume
or `None`; the venue oracles stand for the HTTP lookups inside the
`fetch_*_24h_quote_volume` functions. -/
structure Env where
  cg : String → Option ℚ
  fetchBinance : String → Option ℚ
  fetchHTX : String → Option ℚ
  fetchCoinbase : String → String → Option ℚ
  fetchBybit : String → Option ℚ

/-- The source's `fetch_bitunix_24h_quote_volume` (lines 209–211): a stub that
always returns `None`. -/
def fetch_bitunix_24h_quote_volume (_pair : String) : Option ℚ := none

/-- The dynamic Python value living in the "source label" slot: `None`, a
string label, or — through the mis-parenthesised conditional expression in
`get_venue_volume_24h` — the tuple `(None, None)`. -/
inductive PyV where
  | vnone
  | str (s : String)
  | pairNone
deriving DecidableEq, Repr

/-- The source's `get_venue_volume_24h(tv_symbol)` (lines 213–232). Each
`return v, "exch:X" if v is not None else (None, None)` parses in Python as
`return (v, ("exch:X" if v is not None else (None, None)))`, so on a fetch
failure for a known venue the second component is the nested tuple. -/
def get_venue_volume_24h (env : Env) (tv : String) : (Option ℚ × PyV) × List Event :=
  let r := parse_tv_symbol tv
  let venue? := r.1
  let base? := r.2.1
  let quote? := r.2.2.1
  match venue?, base?, quote? with
  | some venue, some base, some quote =>
    if venue = "" then ((none, PyV.vnone), [])
    else if venue = "BINANCE" then
      let v := env.fetchBinance (base ++ quote)
      ((v, if v.isSome then PyV.str "exch:BINANCE" else PyV.pairNone),
        [Event.venueQuery "BINANCE" (base ++ quote)])
    else if venue = "HTX" ∨ venue = "HUOBI" then
      let v := env.fetchHTX (pyLower (base ++ quote))
      ((v, if v.isSome then PyV.str "exch:HTX" else PyV.pairNone),
        [Event.venueQuery "HTX" (pyLower (base ++ quote))])
    else if venue = "COINBASE" then
      let v := env.fetchCoinbase base quote
      ((v, if v.isSome then PyV.str "exch:COINBASE" else PyV.pairNone),
        [Event.venueQuery "COINBASE" (base ++ "-" ++ quote)])
    else if venue = "BYBIT" then
      let v := env.fetchBybit (base ++ quote)
      ((v, if v.isSome then PyV.str "exch:BYBIT" else PyV.pairNone),
        [Event.venueQuery "BYBIT" (base ++ quote)])
    else if venue = "BITUNIX" then
      let v := fetch_bitunix_24h_quote_volume (base ++ quote)
      ((v, if v.isSome then PyV.str "exch:BITUNIX" else PyV.pairNone),
        [Event.venueQuery "BITUNIX" (base ++ quote)])
    else ((none, PyV.vnone), [])
  | _, _, _ => ((none, PyV.vnone), [])

/-- One caller-supplied fallback tier of the volume selection (one of the
three `if vol_src is None and X is not None: try: ...` blocks, lines
358–369): taken only while no source is set and the field is non-`None`; a
failed `float(...)` leaves both the value and the source untouched. -/
def fallbackTier (cur : Option ℚ × PyV) (v : JVal) (lbl : String) : Option ℚ × PyV :=
  if cur.2 = PyV.vnone ∧ v ≠ JVal.jnull then
    match pyFloat v with
    | some q => (some q, PyV.str lbl)
    | none => cur
  else cur

/-- The 24h-volume selection of the webhook handler (lines 348–369):
CoinGecko, then the venue, then the three TradingView-supplied fields.
Returns the final `(vol_value, vol_src)` and the provider queries issued. -/
def resolve_volume (env : Env) (sym : String) (vq vb vl vm : JVal) :
    (Option ℚ × PyV) × List Event :=
  let v0 := env.cg sym
  let s0 : PyV := if v0.isSome then PyV.str "cg" else PyV.vnone
  let step1 : (Option ℚ × PyV) × List Event :=
    if s0 = PyV.vnone then
      let r := get_venue_volume_24h env sym
      (if r.1.1.isSome then (r.1.1, r.1.2) else (v0, s0), r.2)
    else ((v0, s0), [])
  let cur2 := fallbackTier step1.1 vq "tv:close-quote"
  let cur3 := fallbackTier cur2 vb "tv:close-base"
  let cur4 := fallbackTier cur3 vl ("tv:" ++ (if truthy vm then pyStrOf vm else "volume"))
  (cur4, Event.cgQuery sym :: step1.2)

/-- Rendering of `{vol_src or 'na'}` in the message f-string: `None` and the
empty string are falsy and print `na`; the `(None, None)` tuple would print
itself. -/
def srcDisplay : PyV → String
  | PyV.vnone => "na"
  | PyV.str s => if s = "" then "na" else s
  | PyV.pairNone => "(None, None)"

/-! ### Price formatting (server.py lines 235–271) -/

/-- The decimal count the mintick tier infers:
`max(0, min(18, int(round(math.log10(1.0/mtf)))))`, with the log taken over
the exact rational. The nearest integer `n` to `log10 x` satisfies `n ≥ d`
iff `x^2 * 10 ≥ 10^(2d)`; a rational `x` never hits the half-way tie, so the
clamped result is the largest `d ≤ 18` with `x^2 * 10 > 10^(2d)` (else 0). -/
def tickDecimals (m : ℚ) : ℕ :=
  let x := 1 / m
  (List.range 19).foldl
    (fun acc d => if 0 < d ∧ x ^ 2 * 10 > (10 : ℚ) ^ (2 * d) then d else acc) 0

/-- The source's `format_price(payload)`: a non-empty preformatted `price_str`
wins verbatim; else `price` formatted to `price_prec` decimals; else to the
decimals inferred from `mintick`; else to 12 decimals; a parse failure at a
tier falls through, and total failure yields `str(price)` (or the dash when
`price` is absent). -/
def format_price (p : Payload) : String :=
  let psCase : Option String :=
    match _get p ["price_str"] with
    | JVal.jstr s => if pyStrip s = "" then none else some s
    | _ => none
  match psCase with
  | some s => s
  | none =>
    let price := _get p ["price"]
    if price = JVal.jnull then "—"
    else
      let ppTry : Option String :=
        let pp := _get p ["price_prec"]
        if pp = JVal.jnull then none
        else
          match pyFloat price, pyFloat pp with
          | some q, some ppq =>
            let k := truncToInt ppq
            if 0 ≤ k then some (fmtFixed q k.toNat) else none
          | _, _ => none
      match ppTry with
      | some out => out
      | none =>
        let mtTry : Option String :=
          let mt := _get p ["mintick"]
          if mt = JVal.jnull then none
          else
            match pyFloat mt with
            | some m =>
              if 0 < m then
                match pyFloat price with
                | some q => some (fmtFixed q (tickDecimals m))
                | none => none
              else none
            | none => none
        match mtTry with
        | some out => out
        | none =>
          match pyFloat price with
          | some q => fmtFixed q 12
          | none => pyStrOf price

/-! ### Message rendering (server.py lines 311–401) -/

/-- Python `a or b` on payload scalars. -/
def pyOrV (a b : JVal) : JVal := if truthy a then a else b

/-- The raw payload fields the handler extracts (lines 312–346,
`obv` is extracted by the source but never rendered). -/
structure Fields where
  symbol : JVal
  signal_tf : JVal
  timeframe : JVal
  chg24 : JVal
  rsi : JVal
  ema20 : JVal
  ema50 : JVal
  ema100 : JVal
  ema200 : JVal
  sma200 : JVal
  macd : JVal
  macds : JVal
  macdh : JVal
  adx : JVal
  diplus : JVal
  dimin : JVal
  bbu : JVal
  bbl : JVal
  bbw : JVal
  atr : JVal
  obv : JVal
  swh : JVal
  swl : JVal
  swhA : JVal
  swlA : JVal
  swhB : JVal
  swlB : JVal
  hiDate : JVal
  loDate : JVal
  hiDateA : JVal
  loDateA : JVal
  hiDateB : JVal
  loDateB : JVal
  btc_dom : JVal
  alt_dom : JVal
  note : JVal
deriving DecidableEq, Repr

/-- Field extraction, with the exact `_get` key lists of the source. -/
def extractFields (p : Payload) : Fields where
  symbol := _get p ["symbol"]
  signal_tf := _get p ["signal_tf"]
  timeframe := _get p ["timeframe"]
  chg24 := _get p ["change_24h"]
  rsi := _get p ["rsi"]
  ema20 := _get p ["ema20"]
  ema50 := _get p ["ema50"]
  ema100 := _get p ["ema100"]
  ema200 := _get p ["ema200"]
  sma200 := _get p ["sma200"]
  macd := _get p ["macd"]
  macds := _get p ["macd_signal"]
  macdh := _get p ["macd_hist"]
  adx := _get p ["adx"]
  diplus := _get p ["di_plus"]
  dimin := _get p ["di_minus"]
  bbu := _get p ["bb_upper"]
  bbl := _get p ["bb_lower"]
  bbw := _get p ["bb_width"]
  atr := _get p ["atr"]
  obv := _get p ["obv"]
  swh := _get p ["swing_high"]
  swl := _get p ["swing_low"]
  swhA := _get p ["swing_high_A"]
  swlA := _get p ["swing_low_A"]
  swhB := _get p ["swing_high_B"]
  swlB := _get p ["swing_low_B"]
  hiDate := _get p ["swing_high_date"]
  loDate := _get p ["swing_low_date"]
  hiDateA := _get p ["swing_high_date_A"]
  loDateA := _get p ["swing_low_date_A"]
  hiDateB := _get p ["swing_high_date_B"]
  loDateB := _get p ["swing_low_date_B"]
  btc_dom := _get p ["btc_dom"]
  alt_dom := _get p ["alt_dom"]
  note := _get p ["note"]

/-- Python `"\n".join(lines)`. -/
def joinLines : List String → String
  | [] => ""
  | [l] => l
  | l :: ls => l ++ "\n" ++ joinLines ls

/-- The message-building block (lines 371–401), over the extracted fields,
the already-formatted price text and the resolved volume. -/
def render (f : Fields) (priceText : String) (volV : Option ℚ) (volS : PyV) : String :=
  let symbol := if truthy f.symbol then pyStrOf f.symbol else "UNKNOWN"
  let tf := pyUpper (pyStrOf (pyOrV f.signal_tf (pyOrV f.timeframe (JVal.jstr "NA"))))
  let volDisplay := match volV with | some q => _abbr q | none => "—"
  let lines :=
    ["📡 TV Alert",
     "• Symbol: " ++ symbol ++ "  (Signal TF: " ++ tf ++ ")",
     "• Price: " ++ priceText ++ "  | 24h: " ++ _clean_num f.chg24 2 true
       ++ "%  | Vol(24h): " ++ volDisplay ++ "  [" ++ srcDisplay volS ++ "]"]
    ++ (if f.btc_dom ≠ JVal.jnull ∨ f.alt_dom ≠ JVal.jnull then
          ["• BTC Dom: " ++ _clean_num f.btc_dom 2 true
            ++ "%  |  Alt Dom(ex-BTC): " ++ _clean_num f.alt_dom 2 true ++ "%"]
        else [])
    ++ ["• RSI(14): " ++ _clean_num f.rsi 2 true ++ "  | ATR: " ++ _clean_num f.atr 6 true,
        "• EMA20/50: " ++ _clean_num f.ema20 6 true ++ " / " ++ _clean_num f.ema50 6 true,
        "• EMA100/200: " ++ _clean_num f.ema100 6 true ++ " / " ++ _clean_num f.ema200 6 true
          ++ "  | SMA200: " ++ _clean_num f.sma200 6 true,
        "• MACD: " ++ _clean_num f.macd 6 true ++ "  Sig: " ++ _clean_num f.macds 6 true
          ++ "  Hist: " ++ _clean_num f.macdh 6 true,
        "• ADX/DI+/DI-: " ++ _clean_num f.adx 2 true ++ " / " ++ _clean_num f.diplus 2 true
          ++ " / " ++ _clean_num f.dimin 2 true
          ++ "  (" ++ trend_read f.adx f.diplus f.dimin ++ ")",
        "• BB U/L: " ++ _clean_num f.bbu 6 true ++ " / " ++ _clean_num f.bbl 6 true
          ++ "  | Width: " ++ _clean_num f.bbw 6 true]
    ++ (if f.swh ≠ JVal.jnull ∨ f.swl ≠ JVal.jnull then
          ["• Swing H/L (Merged): " ++ _clean_num f.swh 6 true ++ " / " ++ _clean_num f.swl 6 true
            ++ (if truthy f.hiDate ∨ truthy f.loDate then
                  "  | Dates: " ++ pyStrOf (pyOrV f.hiDate (JVal.jstr "—"))
                    ++ " / " ++ pyStrOf (pyOrV f.loDate (JVal.jstr "—"))
                else "")]
        else [])
    ++ (if f.swhA ≠ JVal.jnull ∨ f.swlA ≠ JVal.jnull ∨ f.swhB ≠ JVal.jnull ∨ f.swlB ≠ JVal.jnull then
          ["• Pivots A: H/L " ++ _clean_num f.swhA 6 true ++ " / " ++ _clean_num f.swlA 6 true
            ++ (if truthy f.hiDateA ∨ truthy f.loDateA then
                  "  (" ++ pyStrOf (pyOrV f.hiDateA (JVal.jstr "—"))
                    ++ " / " ++ pyStrOf (pyOrV f.loDateA (JVal.jstr "—")) ++ ")"
                else ""),
           "• Pivots B: H/L " ++ _clean_num f.swhB 6 true ++ " / " ++ _clean_num f.swlB 6 true
            ++ (if truthy f.hiDateB ∨ truthy f.loDateB then
                  "  (" ++ pyStrOf (pyOrV f.hiDateB (JVal.jstr "—"))
                    ++ " / " ++ pyStrOf (pyOrV f.loDateB (JVal.jstr "—")) ++ ")"
                else "")]
        else [])
    ++ (if truthy f.note then ["• Note: " ++ pyStrOf f.note] else [])
  joinLines lines

/-- The full message for a payload and a resolved volume. -/
def build_message (p : Payload) (volV : Option ℚ) (volS : PyV) : String :=
  render (extractFields p) (format_price p) volV volS

/-! ### The webhook route (server.py lines 297–412) -/

/-- Process configuration (the three environment variables the handler uses). -/
structure Config where
  alert_secret : Option String
  telegram_token : Option String
  chat_id : Option String

/-- Python truthiness of an optional environment-variable string. -/
def optTruthy : Option String → Bool
  | none => false
  | some s => s ≠ ""

/-- The secret gate (line 308): rejects when `ALERT_SECRET` is unset or empty
or when `payload.get("secret")` is not that exact string. -/
def secretOK (cfg : Config) (p : Payload) : Bool :=
  match cfg.alert_secret with
  | none => false
  | some sec => if sec = "" then false else dgetJ p "secret" = JVal.jstr sec

/-- Line 403: both Telegram credentials must be truthy. -/
def tgConfigured (cfg : Config) : Bool :=
  optTruthy cfg.telegram_token && optTruthy cfg.chat_id

/-- Line 312, `symbol = _get(payload, "symbol") or "UNKNOWN"`, together with
the first use of the value at line 349: a falsy field gives the string
`"UNKNOWN"`, a truthy string is kept, and a truthy non-string is passed raw
to `parse_tv_symbol`, whose `tv_symbol.split(":")` raises `AttributeError`
before any provider call — the outer handler then answers 500 with no
effects. `none` models that crash. -/
def symbolOf (p : Payload) : Option String :=
  let v := _get p ["symbol"]
  if truthy v then
    match v with
    | JVal.jstr s => some s
    | _ => none
  else some "UNKNOWN"

/-- The volume selection as the handler invokes it for the extracted symbol
string, with the four TradingView fallback fields read from the payload
(lines 343–369). -/
def resolveOf (env : Env) (sym : String) (p : Payload) : (Option ℚ × PyV) × List Event :=
  resolve_volume env sym
    (_get p ["vol24h_quote_tv"]) (_get p ["vol24h_base_tv"])
    (_get p ["volume"]) (_get p ["vol_mode"])

/-- The source's `send_telegram(text)` (lines 25–33), as invoked with the
configured `CHAT_ID`. `int(CHAT_ID)` at line 27 sits outside the function's
try block, so a chat id that is not an integer literal raises before the
HTTP request and the exception escapes to the route handler (`none`: no
delivery call). Otherwise the whole text goes out in a single `sendMessage`
call — no splitting of any kind — and HTTP failures are swallowed inside
the try, so the effect is exactly that one call. -/
def send_telegram (chatId : Option String) (text : String) : Option (List Event) :=
  match chatId with
  | some cid =>
    match pyIntParse cid with
    | some _ => some [Event.tgSend text]
    | none => none
  | none => none

/-- The `/tv` POST handler (lines 297–412) on an authenticated,
already-parsed JSON object: secret gate, symbol extraction, volume
enrichment, message build, configuration check, delivery. The outer `except`
(lines 410–412) turns an exception that escapes the body — a truthy
non-string `symbol` crashing `parse_tv_symbol`, or a non-numeric `CHAT_ID`
crashing `int()` — into a 500 answer with no send; the model returns the
fixed body `"error"` there, abbreviating Python's `f"error: {e}"` whose
exception text is not modelled. -/
def tv_webhook (env : Env) (cfg : Config) (p : Payload) : (String × ℕ) × List Event :=
  if secretOK cfg p then
    match symbolOf p with
    | none => (("error", 500), [])
    | some sym =>
      let r := resolveOf env sym p
      let msg := build_message p r.1.1 r.1.2
      if tgConfigured cfg then
        match send_telegram cfg.chat_id msg with
        | some sends => (("ok", 200), r.2 ++ sends)
        | none => (("error", 500), r.2)
      else (("server misconfigured", 500), r.2)
  else (("unauthorized", 401), [])

/-! ### Alert cache -/

/-- Store a key in an association list, overwriting any previous binding. -/
def setAssoc {α : Type} (k : String) (v : α) : List (String × α) → List (String × α)
  | [] => [(k, v)]
  | (k', v') :: rest => if k' = k then (k, v) :: rest else (k', v') :: setAssoc k v rest

/-- First value bound to a key in an association list. -/
def getAssoc {α : Type} (k : String) : List (String × α) → Option α
  | [] => none
  | (k', v') :: rest => if k' = k then some v' else getAssoc k rest

/-- Symbol under which a payload is cached. -/
def cacheSymbolKey (p : Payload) : String := pyStrOf (_get p ["symbol"])

/-- Timeframe under which a payload is cached. -/
def cacheTfKey (p : Payload) : String := pyStrOf (_get p ["timeframe", "signal_tf"])

/-- Modelled from the spec: the Alert Cache (spec §4.6) — the handler variant
in `src/` does not contain it, only the spec describes it. State is the map
`cache[symbol][timeframe]` of most recent payloads plus the single
last-payload pointer, both living for the process lifetime. -/
structure AlertCacheState where
  bySymbol : List (String × List (String × Payload))
  lastPayload : Option Payload
deriving Repr

/-- Modelled from the spec: the empty cache at process start. -/
def AlertCacheState.empty : AlertCacheState := ⟨[], none⟩

/-- Modelled from the spec: `record(payload)` stores the payload under
`cache[symbol][timeframe]` and updates the last-payload pointer, both
unconditionally overwritten with no merge. -/
def AlertCacheState.record (st : AlertCacheState) (p : Payload) : AlertCacheState where
  bySymbol :=
    let inner :=
      match getAssoc (cacheSymbolKey p) st.bySymbol with
      | some m => m
      | none => []
    setAssoc (cacheSymbolKey p) (setAssoc (cacheTfKey p) p inner) st.bySymbol
  lastPayload := some p

/-- Modelled from the spec: `lookup(symbol, timeframe)` with both arguments
given is a direct key lookup. -/
def AlertCacheState.lookup (st : AlertCacheState) (sym tf : String) : Option Payload :=
  match getAssoc sym st.bySymbol with
  | some m => getAssoc tf m
  | none => none

/-! ### Specification-side definitions for comparison -/

/-- Rounding a raw price "to the nearest tick using round-half-up", following
the spec's words (spec §4.5 tier 3): the multiple of the tick nearest to the
price, with half-ties rounded up. -/
def tickRoundHalfUpSpec (price tick : ℚ) : ℚ :=
  tick * (zfloor (price / tick + 1 / 2) : ℚ)

/-! ### Concrete fixtures -/

/-- A provider environment in which every external lookup fails. -/
def envNone : Env :=
  { cg := fun _ => none
    fetchBinance := fun _ => none
    fetchHTX := fun _ => none
    fetchCoinbase := fun _ _ => none
    fetchBybit := fun _ => none }

/-- A fully configured process. -/
def cfgStd : Config :=
  { alert_secret := some "s3cret", telegram_token := some "tok", chat_id := some "42" }

/-- A provider environment whose aggregator tier always answers 5. -/
def envCG : Env :=
  { envNone with cg := fun _ => some 5 }

/-- Whether an event is a Telegram send whose text contains `needle`. -/
def sendTextContains (needle : String) : Event → Bool
  | Event.tgSend t => containsStr needle t
  | _ => false

/-- The texts of the delivery calls among a list of effects. -/
def sendTexts (evs : List Event) : List String :=
  evs.filterMap (fun e => match e with | Event.tgSend t => some t | _ => none)

/-- The two cache payloads of the last-write-wins scenario. -/
def p100 : Payload :=
  [("symbol", JVal.jstr "BTCUSDT"), ("timeframe", JVal.jstr "240"), ("price", JVal.jnum 100)]

/-- Second write to the same (symbol, timeframe) key. -/
def p200 : Payload :=
  [("symbol", JVal.jstr "BTCUSDT"), ("timeframe", JVal.jstr "240"), ("price", JVal.jnum 200)]

/-! ## Helper lemmas -/

/-- In a payload whose stored values are all `null`, every `_get` fails. -/
theorem _get_all_null (p : Payload) (h : ∀ kv ∈ p, kv.2 = JVal.jnull) :
    ∀ ks, _get p ks = JVal.jnull := by
  intro ks
  induction ks with
  | nil => rfl
  | cons k ks ih =>
    rw [_get]
    cases hf : lookupP p k with
    | none => exact ih
    | some v =>
      have hv : v = JVal.jnull := by
        unfold lookupP at hf
        cases hfind : p.find? (fun kv => kv.1 = k) with
        | none => rw [hfind] at hf; cases hf
        | some kv =>
          rw [hfind] at hf
          have hmem := List.mem_of_find?_eq_some hfind
          simp only [Option.map_some'] at hf
          rw [← Option.some.inj hf]
          exact h kv hmem
      simp [hv, ih]

/-- Reading back the key just stored in an association list. -/
theorem getAssoc_set {α : Type} (k : String) (v : α) (m : List (String × α)) :
    getAssoc k (setAssoc k v m) = some v := by
  induction m with
  | nil => simp [setAssoc, getAssoc]
  | cons kv rest ih =>
    obtain ⟨k', v'⟩ := kv
    by_cases h : k' = k <;> simp [setAssoc, getAssoc, h, ih]

/-- The fuel-bounded replace worker with an absent pattern head is the
identity, whatever the fuel. -/
theorem removeOccF_of_not_mem (c0 : Char) (cs : List Char) :
    ∀ (fuel : ℕ) (l : List Char), c0 ∉ l → removeOccF c0 cs fuel l = l := by
  intro fuel
  induction fuel with
  | zero => intro l _; rfl
  | succ fuel ih =>
    intro l h
    cases l with
    | nil => rfl
    | cons a rest =>
      have ha : ¬ (c0 = a) := fun e => h (e ▸ List.mem_cons_self a rest)
      have hpre : (c0 :: cs).isPrefixOf (a :: rest) = false := by
        simp [List.isPrefixOf, ha]
      rw [removeOccF, hpre]
      simp [ih rest (fun hm => h (List.mem_cons_of_mem _ hm))]

/-- `str.replace` with a pattern whose first character never occurs is the
identity. -/
theorem removeOcc_of_not_mem (c0 : Char) (cs : List Char) (l : List Char) (h : c0 ∉ l) :
    removeOcc c0 cs l = l :=
  removeOccF_of_not_mem c0 cs l.length l h

/-- Splitting on a character that does not occur returns the list whole. -/
theorem splitChar_of_not_mem (c : Char) :
    ∀ l : List Char, c ∉ l → splitChar c l = [l] := by
  intro l
  induction l with
  | nil => intro _; rfl
  | cons a rest ih =>
    intro h
    have ha : ¬ (a = c) := fun e => h (e ▸ List.mem_cons_self a rest)
    have hr := ih (fun hm => h (List.mem_cons_of_mem _ hm))
    rw [splitChar]
    simp [ha, hr]

/-! ## Claim C1 -/

/-- C1: an inbound payload whose `secret` field is missing, null, or anything
other than the configured shared-secret string is answered with
`("unauthorized", 401)` and produces no external effects at all: no Telegram
send and no provider query (the enrichment pipeline is never reached). -/
theorem C1_unauthorized (env : Env) (cfg : Config) (p : Payload) (sec : String)
    (hc : cfg.alert_secret = some sec) (hs : dgetJ p "secret" ≠ JVal.jstr sec) :
    tv_webhook env cfg p = (("unauthorized", 401), []) := by
  have hok : secretOK cfg p = false := by
    unfold secretOK
    rw [hc]
    by_cases he : sec = ""
    · simp [he]
    · simp [he, hs]
  unfold tv_webhook
  rw [hok]
  simp

/-- Witness for C1 at a concrete wrong-secret payload. -/
theorem C1_witness :
    cfgStd.alert_secret = some "s3cret" ∧
    dgetJ [("secret", JVal.jstr "wrong")] "secret" ≠ JVal.jstr "s3cret" ∧
    tv_webhook envNone cfgStd [("secret", JVal.jstr "wrong")] = (("unauthorized", 401), []) :=
  ⟨rfl, by decide,
    C1_unauthorized envNone cfgStd [("secret", JVal.jstr "wrong")] "s3cret" rfl (by decide)⟩

/-! ## Claim C3 -/

/-- C3: when the CoinGecko tier returns a numeric value `q`, the volume
selection ends with value `q` and provenance `cg`, the only provider effect
is the single aggregator query (no venue client is invoked), and the result
does not depend on any of the caller-supplied fallback fields, which are
universally quantified here. -/
theorem C3_short_circuit (env : Env) (sym : String) (q : ℚ) (vq vb vl vm : JVal)
    (h : env.cg sym = some q) :
    resolve_volume env sym vq vb vl vm = ((some q, PyV.str "cg"), [Event.cgQuery sym]) := by
  unfold resolve_volume fallbackTier
  simp [h]

/-- Witness for C3: the aggregator answers, the parseable fallback fields are
ignored and no venue query is issued. -/
theorem C3_witness :
    envCG.cg "BINANCE:BTCUSDT" = some 5 ∧
    resolve_volume envCG "BINANCE:BTCUSDT" (JVal.jnum 1) (JVal.jnum 2) (JVal.jnum 3)
        (JVal.jstr "sum") =
      ((some 5, PyV.str "cg"), [Event.cgQuery "BINANCE:BTCUSDT"]) :=
  ⟨rfl, C3_short_circuit envCG "BINANCE:BTCUSDT" 5 _ _ _ _ rfl⟩

/-! ## Claim C5 -/

/-- C5 counterexample: on the inputs the claim lists, the normalizer does not
return a `None` value — its codomain is a string, and it returns the
placeholder glyph (or the empty string when dashes are disallowed). -/
theorem C5_cex :
    _clean_num (JVal.jstr "NA") 6 true = "—" ∧
    _clean_num (JVal.jstr "NaN") 6 true = "—" ∧
    _clean_num (JVal.jstr "") 6 false = "" := by decide

/-- C5 amended: for every input string whose stripped, lower-cased form is in
{"na", "nan", ""}, `_clean_num` yields the placeholder glyph `—` (or `""`
when `allow_dash` is false) — the value is treated as missing, but the
function returns the rendered placeholder rather than a `None`. -/
theorem C5_placeholder (s : String) (d : ℕ)
    (h : pyLower (pyStrip s) = "na" ∨ pyLower (pyStrip s) = "nan" ∨ pyLower (pyStrip s) = "") :
    _clean_num (JVal.jstr s) d true = "—" ∧ _clean_num (JVal.jstr s) d false = "" := by
  rcases h with h | h | h <;> exact ⟨by simp [_clean_num, h], by simp [_clean_num, h]⟩

/-- Witness for C5 at the concrete input `"NaN"`. -/
theorem C5_witness :
    (pyLower (pyStrip "NaN") = "na" ∨ pyLower (pyStrip "NaN") = "nan" ∨
      pyLower (pyStrip "NaN") = "") ∧
    _clean_num (JVal.jstr "NaN") 3 true = "—" :=
  ⟨by decide, (C5_placeholder "NaN" 3 (by decide)).1⟩

/-! ## Claim C4 -/

/-- C4 counterexample: `BTCFDUSD` ends in the known quote `FDUSD` (which is
strictly shorter than the pair), yet the parser selects `USD` — the list is
scanned in its written order, which is not longest-first. -/
theorem C4_cex :
    parse_tv_symbol "BTCFDUSD" = (none, some "BTCFD", some "USD", "BTCFDUSD") ∧
    "FDUSD" ∈ QUOTES ∧
    "FDUSD".data.isSuffixOf "BTCFDUSD".data = true ∧
    "FDUSD".length < "BTCFDUSD".length := by decide

/-- Any pair written as a clean prefix followed by `USD` parses with quote
`USD`: the `USDT` entry tried before it can never match (the last character
differs), and `USD` matches first in the scan order — regardless of whether a
longer quote such as `FDUSD` also ends the pair. The prefix must be nonempty
and free of the separator characters the parser strips. -/
theorem parse_usd_tail (L : List Char) (hne : L ≠ [])
    (hc : ':' ∉ L) (hd : '-' ∉ L) (hs : '/' ∉ L) (hp : '.' ∉ L) (hu : '_' ∉ L) :
    parse_tv_symbol (String.mk (L ++ ['U', 'S', 'D'])) =
      (none, some (String.mk L), some "USD", String.mk (L ++ ['U', 'S', 'D'])) := by
  have hdata : (String.mk (L ++ ['U', 'S', 'D'])).data = L ++ ['U', 'S', 'D'] := rfl
  have h0 : ¬ (String.mk (L ++ ['U', 'S', 'D']) = "") := by
    intro he
    have : L ++ ['U', 'S', 'D'] = [] := congrArg String.data he
    simp at this
  have hcolon : ':' ∉ L ++ ['U', 'S', 'D'] := by simp [List.mem_append, hc]
  have hsplit : splitChar ':' (L ++ ['U', 'S', 'D']) = [L ++ ['U', 'S', 'D']] :=
    splitChar_of_not_mem ':' _ hcolon
  have hrm : ∀ (c0 : Char) (cs : List Char), c0 ∉ L ++ ['U', 'S', 'D'] →
      removeOcc c0 cs (L ++ ['U', 'S', 'D']) = L ++ ['U', 'S', 'D'] :=
    fun c0 cs h => removeOcc_of_not_mem c0 cs _ h
  have hUSDT : "USDT".data.isSuffixOf (L ++ ['U', 'S', 'D']) = false := by
    simp [List.isSuffixOf, List.reverse_append, List.isPrefixOf]
  have hUSD : "USD".data.isSuffixOf (L ++ ['U', 'S', 'D']) = true := by
    simp [List.isSuffixOf, List.reverse_append, List.isPrefixOf]
  have hlenpair : (String.mk (L ++ ['U', 'S', 'D'])).length = L.length + 3 := by
    show (L ++ ['U', 'S', 'D']).length = L.length + 3
    simp
  have hLpos : 0 < L.length := List.length_pos.mpr hne
  have hfq : findQuote (String.mk (L ++ ['U', 'S', 'D'])) QUOTES = some "USD" := by
    unfold QUOTES findQuote
    rw [hdata, hUSDT]
    simp only [Bool.false_eq_true, false_and, if_false]
    rw [findQuote, hdata, hUSD]
    have hlt : "USD".length < (String.mk (L ++ ['U', 'S', 'D'])).length := by
      rw [hlenpair]
      show 3 < L.length + 3
      omega
    rw [if_pos ⟨rfl, hlt⟩]
  have hgl : ([L ++ ['U', 'S', 'D']] : List (List Char)).getLastD ([] : List Char) =
      L ++ ['U', 'S', 'D'] := rfl
  have htake : List.take ((String.mk (L ++ ['U', 'S', 'D'])).length - "USD".length)
      (L ++ ['U', 'S', 'D']) = L := by
    rw [hlenpair]
    show (L ++ ['U', 'S', 'D']).take (L.length + 3 - 3) = L
    have he : L.length + 3 - 3 = L.length := by omega
    rw [he, List.take_left]
  unfold parse_tv_symbol
  rw [if_neg h0, hdata, hsplit]
  dsimp only
  rw [hgl]
  rw [hrm '-' [] (by simp [List.mem_append, hd]),
    hrm '/' [] (by simp [List.mem_append, hs]),
    hrm '.' ['P'] (by simp [List.mem_append, hp]),
    hrm '_' ['P', 'E', 'R', 'P'] (by simp [List.mem_append, hu]),
    hrm '-' ['P', 'E', 'R', 'P'] (by simp [List.mem_append, hd])]
  rw [hfq]
  dsimp only
  rw [htake]
  simp

/-- C4 amended: the parser scans the fixed list
`["USDT", "USD", "USDC", "FDUSD", "BUSD", "TUSD", "EUR", "TRY", "BTC", "ETH"]`
in exactly that written order — `USDT` before `USD`, but `USD` before `FDUSD`,
`BUSD` and `TUSD` — taking the first entry that is a strict suffix. Hence a
pair ending in `FDUSD`, `BUSD` or `TUSD` (with a nonempty, separator-free
prefix) gets quote `USD`, the rest of the longer quote staying on the base. -/
theorem C4_first_match (l : List Char) (_hne : l ≠ [])
    (hc : ':' ∉ l) (hd : '-' ∉ l) (hs : '/' ∉ l) (hp : '.' ∉ l) (hu : '_' ∉ l) :
    (parse_tv_symbol (String.mk (l ++ ['F', 'D', 'U', 'S', 'D'])) =
      (none, some (String.mk (l ++ ['F', 'D'])), some "USD",
        String.mk (l ++ ['F', 'D', 'U', 'S', 'D']))) ∧
    (parse_tv_symbol (String.mk (l ++ ['B', 'U', 'S', 'D'])) =
      (none, some (String.mk (l ++ ['B'])), some "USD",
        String.mk (l ++ ['B', 'U', 'S', 'D']))) ∧
    (parse_tv_symbol (String.mk (l ++ ['T', 'U', 'S', 'D'])) =
      (none, some (String.mk (l ++ ['T'])), some "USD",
        String.mk (l ++ ['T', 'U', 'S', 'D']))) := by
  refine ⟨?_, ?_, ?_⟩
  · have := parse_usd_tail (l ++ ['F', 'D']) (by simp)
      (by simp [List.mem_append, hc]) (by simp [List.mem_append, hd])
      (by simp [List.mem_append, hs]) (by simp [List.mem_append, hp])
      (by simp [List.mem_append, hu])
    simpa [List.append_assoc] using this
  · have := parse_usd_tail (l ++ ['B']) (by simp)
      (by simp [List.mem_append, hc]) (by simp [List.mem_append, hd])
      (by simp [List.mem_append, hs]) (by simp [List.mem_append, hp])
      (by simp [List.mem_append, hu])
    simpa [List.append_assoc] using this
  · have := parse_usd_tail (l ++ ['T']) (by simp)
      (by simp [List.mem_append, hc]) (by simp [List.mem_append, hd])
      (by simp [List.mem_append, hs]) (by simp [List.mem_append, hp])
      (by simp [List.mem_append, hu])
    simpa [List.append_assoc] using this

/-- Witness for C4 at the concrete prefix `BTC`. -/
theorem C4_witness :
    (['B', 'T', 'C'] : List Char) ≠ [] ∧
    parse_tv_symbol (String.mk (['B', 'T', 'C'] ++ ['F', 'D', 'U', 'S', 'D'])) =
      (none, some (String.mk (['B', 'T', 'C'] ++ ['F', 'D'])), some "USD",
        String.mk (['B', 'T', 'C'] ++ ['F', 'D', 'U', 'S', 'D'])) :=
  ⟨by decide,
    (C4_first_match ['B', 'T', 'C'] (by decide) (by decide) (by decide) (by decide) (by decide)
      (by decide)).1⟩

/-! ## Claim C9 -/

/-- C9: `record` overwrites unconditionally — after two records to the same
(symbol, timeframe) key the lookup and the last-payload pointer both return
the second payload; concretely, recording the price-100 then the price-200
BTCUSDT/240 payload makes `lookup "BTCUSDT" "240"` yield the payload whose
price is 200. -/
theorem C9_last_write_wins :
    (∀ (st : AlertCacheState) (q1 q2 : Payload),
      ((st.record q1).record q2).lookup (cacheSymbolKey q2) (cacheTfKey q2) = some q2 ∧
      ((st.record q1).record q2).lastPayload = some q2) ∧
    ((AlertCacheState.empty.record p100).record p200).lookup "BTCUSDT" "240" = some p200 ∧
    _get p200 ["price"] = JVal.jnum 200 := by
  refine ⟨fun st q1 q2 => ⟨?_, rfl⟩, by decide, by decide⟩
  simp [AlertCacheState.lookup, AlertCacheState.record, getAssoc_set]

/-! ## Claim C6 -/

/-- Every `_get` on the empty payload fails. -/
theorem _get_nil : ∀ ks, _get ([] : Payload) ks = JVal.jnull :=
  _get_all_null [] (by simp)

/-- C6 counterexample: a payload whose `rsi` field is the string `"null"`
(with the correct secret) produces a delivered notification whose text
contains the literal substring `null` — the unparseable string is echoed, not
replaced by the placeholder glyph. -/
theorem C6_cex :
    ((tv_webhook envNone cfgStd
        [("secret", JVal.jstr "s3cret"), ("rsi", JVal.jstr "null")]).2.any
      (sendTextContains "null")) = true := by decide

/-- C6 amended: for fields that are genuinely missing — absent from the
payload or JSON `null` — the renderer emits only placeholder glyphs and the
message never contains the literals `None`, `null` or `nan`; but a present,
unparseable string field is echoed verbatim (lower-cased), so such a field
can inject those literals. -/
theorem C6_missing_placeholder (p : Payload) (h : ∀ kv ∈ p, kv.2 = JVal.jnull) :
    containsStr "None" (build_message p none PyV.vnone) = false ∧
    containsStr "null" (build_message p none PyV.vnone) = false ∧
    containsStr "nan" (build_message p none PyV.vnone) = false := by
  have hg := _get_all_null p h
  have hmsg : build_message p none PyV.vnone = build_message [] none PyV.vnone := by
    unfold build_message render extractFields format_price
    simp only [hg, _get_nil]
  rw [hmsg]
  exact ⟨by decide, by decide, by decide⟩

/-- Witness for C6 on a payload holding one explicit JSON `null`. -/
theorem C6_witness :
    (∀ kv ∈ ([("rsi", JVal.jnull)] : Payload), kv.2 = JVal.jnull) ∧
    containsStr "null" (build_message [("rsi", JVal.jnull)] none PyV.vnone) = false :=
  ⟨by decide, (C6_missing_placeholder [("rsi", JVal.jnull)] (by decide)).2.1⟩

/-! ## Claim C8 -/

/-- C8 counterexample: with raw price `0.125` (exactly representable) and
tick `"0.01"`, the code renders `0.12` (two decimals inferred from the tick,
formatter's round-half-even), while rounding to the nearest tick with
round-half-up as the claim states would give `0.13`. -/
theorem C8_cex :
    format_price [("price", JVal.jnum (1 / 8)), ("mintick", JVal.jstr "0.01")] = "0.12" ∧
    tickRoundHalfUpSpec (1 / 8) (1 / 100) = 13 / 100 ∧
    fmtFixed (13 / 100) 2 = "0.13" := by decide

/-- C8 amended: with no preformatted string and no precision hint, the tick
tier formats the raw price to `tickDecimals` of the tick — the nearest
integer to `log10(1/tick)` clamped to `[0, 18]` — decimal places, under the
float formatter's round-half-even; it does not round to a multiple of the
tick, and ties go to even, not up. For `rawPrice = 1.23456`, `tick = "0.01"`
this yields exactly `"1.23"` (see the witness). -/
theorem C8_tick_decimals (q m : ℚ) (s : String)
    (hs : pyFloatParse s = some m) (hm : 0 < m) :
    format_price [("price", JVal.jnum q), ("mintick", JVal.jstr s)] =
      fmtFixed q (tickDecimals m) := by
  have h1 : _get [("price", JVal.jnum q), ("mintick", JVal.jstr s)] ["price_str"] =
      JVal.jnull := rfl
  have h2 : _get [("price", JVal.jnum q), ("mintick", JVal.jstr s)] ["price"] =
      JVal.jnum q := rfl
  have h3 : _get [("price", JVal.jnum q), ("mintick", JVal.jstr s)] ["price_prec"] =
      JVal.jnull := rfl
  have h4 : _get [("price", JVal.jnum q), ("mintick", JVal.jstr s)] ["mintick"] =
      JVal.jstr s := rfl
  unfold format_price
  rw [h1, h2, h3, h4]
  simp [pyFloat, hs, hm]

/-- Witness for C8: the concrete spec example formats to `"1.23"`. -/
theorem C8_witness :
    pyFloatParse "0.01" = some (1 / 100) ∧ (0 : ℚ) < 1 / 100 ∧
    format_price [("price", JVal.jnum (123456 / 100000)), ("mintick", JVal.jstr "0.01")] =
      "1.23" := by
  refine ⟨by decide, by decide, ?_⟩
  have h := C8_tick_decimals (123456 / 100000) (1 / 100) "0.01" (by decide) (by decide)
  rw [h]
  decide

/-! ## Claim C2 -/

/-- C2 counterexample: with every tier failing, the selection ends in
`(None, None)` — not `(None, "unavailable")` — and the label the user sees in
the rendered message is `na`; the string `unavailable` appears nowhere. -/
theorem C2_cex :
    resolve_volume envNone "UNKNOWN" JVal.jnull JVal.jnull JVal.jnull JVal.jnull =
      ((none, PyV.vnone), [Event.cgQuery "UNKNOWN"]) ∧
    srcDisplay PyV.vnone = "na" ∧
    containsStr "unavailable" (build_message [] none PyV.vnone) = false ∧
    containsStr "[na]" (build_message [] none PyV.vnone) = true := by decide

/-- C2 amended: when the aggregator, the venue and all three caller-supplied
fallback fields fail, the selection leaves the value `None` and the source
slot `None`, and the provenance label rendered for the user is `na` (the
source never produces the string `unavailable`). -/
theorem C2_all_fail (env : Env) (sym : String) (vq vb vl vm : JVal)
    (h1 : env.cg sym = none)
    (h2 : (get_venue_volume_24h env sym).1.1 = none)
    (h3 : pyFloat vq = none) (h4 : pyFloat vb = none) (h5 : pyFloat vl = none) :
    resolve_volume env sym vq vb vl vm =
      ((none, PyV.vnone), Event.cgQuery sym :: (get_venue_volume_24h env sym).2) ∧
    srcDisplay PyV.vnone = "na" := by
  refine ⟨?_, rfl⟩
  unfold resolve_volume
  rw [h1]
  simp [fallbackTier, h2, h3, h4, h5]

/-- Witness for C2 at the failing environment and an empty fallback set. -/
theorem C2_witness :
    envNone.cg "UNKNOWN" = none ∧
    (get_venue_volume_24h envNone "UNKNOWN").1.1 = none ∧
    resolve_volume envNone "UNKNOWN" JVal.jnull JVal.jnull JVal.jnull JVal.jnull =
      ((none, PyV.vnone), Event.cgQuery "UNKNOWN" :: (get_venue_volume_24h envNone "UNKNOWN").2) :=
  ⟨rfl, rfl,
    (C2_all_fail envNone "UNKNOWN" JVal.jnull JVal.jnull JVal.jnull JVal.jnull rfl rfl rfl rfl
      rfl).1⟩

/-! ## Claim C10 -/

/-- A successful venue lookup always carries a string label, never the
`(None, None)` tuple, in its second component. -/
theorem venue_some_label (env : Env) (sym : String)
    (h : (get_venue_volume_24h env sym).1.1.isSome = true) :
    (get_venue_volume_24h env sym).1.2 ≠ PyV.pairNone := by
  unfold get_venue_volume_24h at *
  generalize parse_tv_symbol sym = r at *
  obtain ⟨v?, b?, q?, pn⟩ := r
  rcases v? with _ | v
  · simp_all
  rcases b? with _ | b
  · simp_all
  rcases q? with _ | qu
  · simp_all
  dsimp only at h ⊢
  split_ifs at h ⊢ <;> simp_all [fetch_bitunix_24h_quote_volume]

/-- Each fallback tier preserves "the source slot is not the tuple". -/
theorem fallbackTier_ne_pair (cur : Option ℚ × PyV) (v : JVal) (lbl : String)
    (h : cur.2 ≠ PyV.pairNone) : (fallbackTier cur v lbl).2 ≠ PyV.pairNone := by
  unfold fallbackTier
  split_ifs with hc
  · cases hpf : pyFloat v <;> simp [hpf, h]
  · exact h

/-- The final source slot of the volume selection is never the `(None, None)`
tuple: the handler only tests the first component of the venue result, so the
malformed second component never surfaces. -/
theorem resolve_ne_pair (env : Env) (sym : String) (vq vb vl vm : JVal) :
    (resolve_volume env sym vq vb vl vm).1.2 ≠ PyV.pairNone := by
  unfold resolve_volume
  apply fallbackTier_ne_pair
  apply fallbackTier_ne_pair
  apply fallbackTier_ne_pair
  cases hcg : env.cg sym with
  | some q => simp [hcg]
  | none =>
    cases hvs : (get_venue_volume_24h env sym).1.1 with
    | none => simp [hcg, hvs]
    | some q =>
      have hlbl := venue_some_label env sym (by rw [hvs]; rfl)
      simp [hcg, hvs, hlbl]

/-- C10: for each known venue, a fetch failure makes `get_venue_volume_24h`
return `(None, (None, None))` — the second component is itself the nested
tuple, because the conditional expression binds only the label — while an
unknown venue or an unparseable symbol yields the flat `(None, None)`; and
the selection logic never propagates the nested tuple because it tests only
the first component. -/
theorem C10_venue_shape (env : Env) :
    (env.fetchBinance "BTCUSDT" = none →
      get_venue_volume_24h env "BINANCE:BTCUSDT" =
        ((none, PyV.pairNone), [Event.venueQuery "BINANCE" "BTCUSDT"])) ∧
    (env.fetchHTX "ethusdt" = none →
      get_venue_volume_24h env "HTX:ETHUSDT" =
        ((none, PyV.pairNone), [Event.venueQuery "HTX" "ethusdt"])) ∧
    (env.fetchCoinbase "BTC" "USD" = none →
      get_venue_volume_24h env "COINBASE:BTCUSD" =
        ((none, PyV.pairNone), [Event.venueQuery "COINBASE" "BTC-USD"])) ∧
    (env.fetchBybit "SOLUSDT" = none →
      get_venue_volume_24h env "BYBIT:SOLUSDT" =
        ((none, PyV.pairNone), [Event.venueQuery "BYBIT" "SOLUSDT"])) ∧
    get_venue_volume_24h env "BITUNIX:BTCUSDT" =
      ((none, PyV.pairNone), [Event.venueQuery "BITUNIX" "BTCUSDT"]) ∧
    get_venue_volume_24h env "KRAKEN:BTCUSDT" = ((none, PyV.vnone), []) ∧
    get_venue_volume_24h env "NOQUOTEXX" = ((none, PyV.vnone), []) ∧
    (∀ sym vq vb vl vm, (resolve_volume env sym vq vb vl vm).1.2 ≠ PyV.pairNone) := by
  refine ⟨?_, ?_, ?_, ?_, ?_, ?_, ?_, fun sym vq vb vl vm => resolve_ne_pair env sym vq vb vl vm⟩
  · intro h
    have hp : parse_tv_symbol "BINANCE:BTCUSDT" =
        (some "BINANCE", some "BTC", some "USDT", "BTCUSDT") := by decide
    unfold get_venue_volume_24h
    rw [hp]
    have harg : ("BTC" ++ "USDT" : String) = "BTCUSDT" := rfl
    simp [harg, h]
  · intro h
    have hp : parse_tv_symbol "HTX:ETHUSDT" =
        (some "HTX", some "ETH", some "USDT", "ETHUSDT") := by decide
    unfold get_venue_volume_24h
    rw [hp]
    have harg : pyLower "ETHUSDT" = "ethusdt" := rfl
    simp [harg, h]
  · intro h
    have hp : parse_tv_symbol "COINBASE:BTCUSD" =
        (some "COINBASE", some "BTC", some "USD", "BTCUSD") := by decide
    unfold get_venue_volume_24h
    rw [hp]
    simp [h]
  · intro h
    have hp : parse_tv_symbol "BYBIT:SOLUSDT" =
        (some "BYBIT", some "SOL", some "USDT", "SOLUSDT") := by decide
    unfold get_venue_volume_24h
    rw [hp]
    have harg : ("SOL" ++ "USDT" : String) = "SOLUSDT" := rfl
    simp [harg, h]
  · have hp : parse_tv_symbol "BITUNIX:BTCUSDT" =
        (some "BITUNIX", some "BTC", some "USDT", "BTCUSDT") := by decide
    unfold get_venue_volume_24h
    rw [hp]
    have harg : ("BTC" ++ "USDT" : String) = "BTCUSDT" := rfl
    simp [harg, fetch_bitunix_24h_quote_volume]
  · have hp : parse_tv_symbol "KRAKEN:BTCUSDT" =
        (some "KRAKEN", some "BTC", some "USDT", "BTCUSDT") := by decide
    unfold get_venue_volume_24h
    rw [hp]
    simp
  · have hp : parse_tv_symbol "NOQUOTEXX" = (none, none, none, "NOQUOTEXX") := by decide
    unfold get_venue_volume_24h
    rw [hp]

/-- Witness for C10 at the all-failing environment. -/
theorem C10_witness :
    envNone.fetchBinance "BTCUSDT" = none ∧
    get_venue_volume_24h envNone "BINANCE:BTCUSDT" =
      ((none, PyV.pairNone), [Event.venueQuery "BINANCE" "BTCUSDT"]) ∧
    (resolve_volume envNone "BINANCE:BTCUSDT" JVal.jnull JVal.jnull JVal.jnull
        JVal.jnull).1.2 ≠ PyV.pairNone :=
  ⟨rfl, (C10_venue_shape envNone).1 rfl,
    (C10_venue_shape envNone).2.2.2.2.2.2.2 "BINANCE:BTCUSDT" JVal.jnull JVal.jnull JVal.jnull
      JVal.jnull⟩

/-! ## Claim C7 -/

/-- A note long enough to push the rendered message past the 3900-character
safe margin. -/
def bigNote : String := String.mk (List.replicate 3950 'a')

/-- A correctly authenticated payload carrying the long note. -/
def pLong : Payload := [("secret", JVal.jstr "s3cret"), ("note", JVal.jstr bigNote)]

/-- Every line is at most as long as the joined message. -/
theorem le_length_joinLines (s : String) :
    ∀ ls : List String, s ∈ ls → s.length ≤ (joinLines ls).length := by
  intro ls
  induction ls with
  | nil => intro h; cases h
  | cons l rest ih =>
    intro h
    cases rest with
    | nil =>
      have : s = l := by simpa using h
      subst this
      exact Nat.le_refl _
    | cons l2 rest2 =>
      have e : joinLines (l :: l2 :: rest2) = l ++ "\n" ++ joinLines (l2 :: rest2) := rfl
      rw [e, String.length_append, String.length_append]
      rcases List.mem_cons.mp h with rfl | hmem
      · omega
      · have := ih hmem
        omega

/-- When the note field is truthy, the rendered message is at least as long
as the note line. -/
theorem render_note_length (f : Fields) (pt : String) (vv : Option ℚ) (vs : PyV)
    (h : truthy f.note = true) :
    ("• Note: " ++ pyStrOf f.note).length ≤ (render f pt vv vs).length := by
  unfold render
  simp only [h, if_true]
  apply le_length_joinLines
  simp

/-- A venue lookup issues provider queries only, never a delivery call. -/
theorem sendTexts_venue (env : Env) (sym : String) :
    sendTexts (get_venue_volume_24h env sym).2 = [] := by
  unfold get_venue_volume_24h
  generalize parse_tv_symbol sym = r
  obtain ⟨v?, b?, q?, pn⟩ := r
  rcases v? with _ | v
  · simp [sendTexts]
  rcases b? with _ | b
  · simp [sendTexts]
  rcases q? with _ | qu
  · simp [sendTexts]
  dsimp only
  split_ifs <;> simp [sendTexts]

/-- The volume selection issues provider queries only, never a delivery
call. -/
theorem sendTexts_resolve (env : Env) (sym : String) (vq vb vl vm : JVal) :
    sendTexts (resolve_volume env sym vq vb vl vm).2 = [] := by
  unfold resolve_volume
  cases hcg : env.cg sym with
  | some q => simp [hcg, sendTexts]
  | none =>
    have hv := sendTexts_venue env sym
    simp only [sendTexts] at hv ⊢
    simp [hcg, hv]

/-- The volume selection as the handler calls it issues no delivery call. -/
theorem sendTexts_resolveOf (env : Env) (sym : String) (p : Payload) :
    sendTexts (resolveOf env sym p).2 = [] :=
  sendTexts_resolve env sym _ _ _ _

/-- `sendTexts` distributes over concatenation of effect lists. -/
theorem sendTexts_append (a b : List Event) :
    sendTexts (a ++ b) = sendTexts a ++ sendTexts b :=
  List.filterMap_append a b _

/-- A delivery that happens carries exactly the one text it was given. -/
theorem send_telegram_shape (chatId : Option String) (t : String) (evs : List Event)
    (h : send_telegram chatId t = some evs) : evs = [Event.tgSend t] := by
  rcases chatId with _ | cid
  · simp [send_telegram] at h
  · simp only [send_telegram] at h
    rcases hp : pyIntParse cid with _ | n <;> rw [hp] at h
    · cases h
    · exact (Option.some.inj h).symm

/-- C7 counterexample: the notifier performs no splitting — on the payload
with a 3950-character note the handler issues a single Telegram delivery call
whose text is the whole rendered message, of length above the 3900-character
safe margin. -/
theorem C7_cex :
    (tv_webhook envNone cfgStd pLong).2 =
      [Event.cgQuery "UNKNOWN", Event.tgSend (build_message pLong none PyV.vnone)] ∧
    3900 < (build_message pLong none PyV.vnone).length := by
  have hbig : bigNote.length = 3950 := by
    show (List.replicate 3950 'a').length = 3950
    exact List.length_replicate 3950 'a'
  constructor
  · have hsec : secretOK cfgStd pLong = true := by decide
    have htg : tgConfigured cfgStd = true := rfl
    have hsym : symbolOf pLong = some "UNKNOWN" := rfl
    have hr : resolveOf envNone "UNKNOWN" pLong =
        ((none, PyV.vnone), [Event.cgQuery "UNKNOWN"]) := by decide
    have hst : ∀ t, send_telegram cfgStd.chat_id t = some [Event.tgSend t] := fun t => rfl
    unfold tv_webhook
    rw [if_pos hsec, hsym]
    dsimp only
    rw [hr, if_pos htg]
    dsimp only
    rw [hst]
    rfl
  · have hnote : (extractFields pLong).note = JVal.jstr bigNote := rfl
    have hne : bigNote ≠ "" := by
      intro he
      rw [he] at hbig
      exact absurd hbig (by decide)
    have htr : truthy (extractFields pLong).note = true := by
      rw [hnote]
      simp [truthy, hne]
    have hlen : 3900 < ("• Note: " ++ pyStrOf (extractFields pLong).note).length := by
      rw [hnote]
      show 3900 < ("• Note: " ++ bigNote).length
      rw [String.length_append]
      have h2 : ("• Note: " : String).length = 8 := rfl
      omega
    have hle := render_note_length (extractFields pLong) (format_price pLong) none PyV.vnone htr
    show 3900 < (render (extractFields pLong) (format_price pLong) none PyV.vnone).length
    omega

/-- C7 amended: the notifier never splits. The handler makes at most one
delivery call per alert — in particular, when the payload's `symbol` is a
truthy non-string the body raises before any effect and the handler answers
500 with no send, and when `CHAT_ID` is not an integer literal `int()`
raises before the request and no send happens either — and on the
non-raising path (authenticated, Telegram configured, symbol absent or a
string, numeric chat id) it issues exactly one delivery call carrying the
entire rendered message, whatever its length. -/
theorem C7_single_send :
    (∀ (env : Env) (cfg : Config) (p : Payload),
      (sendTexts (tv_webhook env cfg p).2).length ≤ 1) ∧
    (∀ (env : Env) (cfg : Config) (p : Payload) (sym cid : String) (n : ℤ),
      secretOK cfg p = true → tgConfigured cfg = true → symbolOf p = some sym →
      cfg.chat_id = some cid → pyIntParse cid = some n →
      tv_webhook env cfg p =
        (("ok", 200), (resolveOf env sym p).2
          ++ [Event.tgSend (build_message p (resolveOf env sym p).1.1
                (resolveOf env sym p).1.2)])) := by
  constructor
  · intro env cfg p
    unfold tv_webhook
    by_cases hsec : secretOK cfg p = true
    · rw [if_pos hsec]
      cases hsym : symbolOf p with
      | none => simp [sendTexts]
      | some sym =>
        dsimp only
        have hres := sendTexts_resolveOf env sym p
        by_cases htg : tgConfigured cfg = true
        · rw [if_pos htg]
          cases hsd : send_telegram cfg.chat_id
              (build_message p (resolveOf env sym p).1.1 (resolveOf env sym p).1.2) with
          | none =>
            dsimp only
            rw [hres]
            simp
          | some sends =>
            have hshape := send_telegram_shape _ _ _ hsd
            subst hshape
            dsimp only
            rw [sendTexts_append, hres]
            simp [sendTexts]
        · rw [if_neg htg]
          dsimp only
          rw [hres]
          simp
    · rw [if_neg hsec]
      simp [sendTexts]
  · intro env cfg p sym cid n h1 h2 h3 h4 h5
    unfold tv_webhook send_telegram
    rw [if_pos h1, h3]
    dsimp only
    rw [if_pos h2, h4]
    dsimp only
    rw [h5]

/-- Witness for C7 on the long-note payload with the numeric chat id. -/
theorem C7_witness :
    secretOK cfgStd pLong = true ∧ tgConfigured cfgStd = true ∧
    symbolOf pLong = some "UNKNOWN" ∧ cfgStd.chat_id = some "42" ∧
    pyIntParse "42" = some 42 ∧
    tv_webhook envNone cfgStd pLong =
      (("ok", 200), (resolveOf envNone "UNKNOWN" pLong).2
        ++ [Event.tgSend (build_message pLong (resolveOf envNone "UNKNOWN" pLong).1.1
              (resolveOf envNone "UNKNOWN" pLong).1.2)]) :=
  ⟨by decide, rfl, rfl, rfl, by decide,
    C7_single_send.2 envNone cfgStd pLong "UNKNOWN" "42" 42 (by decide) rfl rfl rfl (by decide)⟩

end TVBot
